import Mathlib

/-!
Verification of the Sex.DetERRmine program (Sex.DetERRmine.py, version 1.1.3).

The development shallowly embeds the two components of the program:

* the sex classifier `determine_sex` and the rate / error estimator
  `CalcErrors` (floats are modelled as exact rationals for the rates and as
  real numbers where `math.sqrt` is involved; a Python `ZeroDivisionError`
  is modelled by `CalcErrors` returning `none`);

* the streaming depth aggregator of the main script (`processLine`,
  `runAgg`, `mainModel`), where an input line is a list of
  whitespace-separated fields, Python's `OrderedDict.update` is modelled on
  association lists by `odUpdate`, and a raised `IndexError` / `ValueError`
  / `IOError` is an `Except.error`.
-/

namespace SexDet

/-- The three genomic partitions the script bins positions into:
autosomes, the X chromosome and the Y chromosome. -/
inductive Bin where
  | Aut
  | X
  | Y
deriving DecidableEq, Repr

/-- Embedding of `determine_sex(rate_x, rate_y)` (lines 8-28 of the source):
threshold classification of the X/Autosome and Y/Autosome coverage ratios.
Python float literals 0.8, 0.05, 0.35, 0.65, 0.1 are modelled as the exact
rationals they denote in the source text. -/
def determine_sex (rate_x rate_y : ℚ) : String :=
  if rate_x ≥ 0.8 ∧ rate_y < 0.05 then "Female"
  else if 0.35 ≤ rate_x ∧ rate_x ≤ 0.65 ∧ rate_y ≥ 0.1 then "Male"
  else "Undetermined"

/-- Variant of `determine_sex` that evaluates the Male band before the
Female band, used to express that the two guards are order-independent. -/
def determine_sex_male_first (rate_x rate_y : ℚ) : String :=
  if 0.35 ≤ rate_x ∧ rate_x ≤ 0.65 ∧ rate_y ≥ 0.1 then "Male"
  else if rate_x ≥ 0.8 ∧ rate_y < 0.05 then "Female"
  else "Undetermined"

/-- The six arguments of `CalcErrors(AutSnps, XSnps, YSnps, NrAut, NrX, NrY)`:
the three global per-partition site counts and one sample's three summed
depths. -/
structure SampleIn where
  AutSnps : ℕ
  XSnps : ℕ
  YSnps : ℕ
  NrAut : ℤ
  NrX : ℤ
  NrY : ℤ
deriving DecidableEq, Repr

/-- The list `SNPs=[AutSnps, XSnps, YSnps]` of `CalcErrors`, indexed by bin. -/
def SampleIn.SNPs (s : SampleIn) : Bin → ℕ
  | Bin.Aut => s.AutSnps
  | Bin.X => s.XSnps
  | Bin.Y => s.YSnps

/-- The list `Reads=[NrAut, NrX, NrY]` of `CalcErrors`, indexed by bin. -/
def SampleIn.Reads (s : SampleIn) : Bin → ℤ
  | Bin.Aut => s.NrAut
  | Bin.X => s.NrX
  | Bin.Y => s.NrY

/-- `Total=sum(Reads)` in `CalcErrors`. -/
def SampleIn.Total (s : SampleIn) : ℤ := s.NrAut + s.NrX + s.NrY

/-- `p[Bin]=Reads[Idx]/Total` in `CalcErrors`. -/
def SampleIn.p (s : SampleIn) (b : Bin) : ℚ := (s.Reads b : ℚ) / (s.Total : ℚ)

/-- `ErrNr[Bin]=sqrt(Total*p[Bin])` in `CalcErrors`. -/
noncomputable def SampleIn.ErrNr (s : SampleIn) (b : Bin) : ℝ :=
  Real.sqrt ((s.Total : ℝ) * ((s.p b : ℚ) : ℝ))

/-- `dp[Bin]=Reads[Idx]/SNPs[Idx]` in `CalcErrors`. -/
def SampleIn.dp (s : SampleIn) (b : Bin) : ℚ := (s.Reads b : ℚ) / (s.SNPs b : ℚ)

/-- `Errdp[Bin]=ErrNr[Bin]/SNPs[Idx]` in `CalcErrors`. -/
noncomputable def SampleIn.Errdp (s : SampleIn) (b : Bin) : ℝ :=
  s.ErrNr b / (s.SNPs b : ℝ)

/-- `rate[Bin]=dp[Bin]/dp["Aut"]` in `CalcErrors`. -/
def SampleIn.rate (s : SampleIn) (b : Bin) : ℚ := s.dp b / s.dp Bin.Aut

/-- The propagated error
`rateErr[Bin]=sqrt((Errdp[Bin]/dp["Aut"])**2 + (Errdp["Aut"]*dp[Bin]/(dp["Aut"]**2))**2)`
of `CalcErrors`. -/
noncomputable def SampleIn.rateErr (s : SampleIn) (b : Bin) : ℝ :=
  Real.sqrt ((s.Errdp b / ((s.dp Bin.Aut : ℚ) : ℝ)) ^ 2 +
    (s.Errdp Bin.Aut * ((s.dp b : ℚ) : ℝ) / (((s.dp Bin.Aut : ℚ) : ℝ)) ^ 2) ^ 2)

/-- The part of the `(rate, rateErr)` pair returned by `CalcErrors` that the
caller reads: the entries at the keys X and Y of the two dictionaries. -/
structure RateRes where
  rateX : ℚ
  rateY : ℚ
  rateErrX : ℝ
  rateErrY : ℝ

/-- Embedding of `CalcErrors` (lines 30-56 of the source).  `none` models a
raised `ZeroDivisionError`: with a nonzero `Total`, the loop computing
`dp[Bin]=Reads[Idx]/SNPs[Idx]` raises as soon as one of the three site counts
is zero, and the rate loop dividing by `dp["Aut"]` raises when `dp["Aut"]`
is zero. -/
noncomputable def CalcErrors (s : SampleIn) : Option RateRes :=
  if s.Total = 0 then some ⟨0, 0, 0, 0⟩
  else if s.AutSnps = 0 ∨ s.XSnps = 0 ∨ s.YSnps = 0 then none
  else if s.dp Bin.Aut = 0 then none
  else some ⟨s.rate Bin.X, s.rate Bin.Y, s.rateErr Bin.X, s.rateErr Bin.Y⟩

/-- The line `sex_estimate = determine_sex(rate["X"], rate["Y"])` of the
main script, lifted over the possible `ZeroDivisionError` of `CalcErrors`. -/
noncomputable def sexOf (r : Option RateRes) : Option String :=
  r.map fun t => determine_sex t.rateX t.rateY

/-- Modelled from the spec: `p[B] = reads[B] / total_reads` (section 4.2). -/
def spec_p (s : SampleIn) (b : Bin) : ℚ := (s.Reads b : ℚ) / (s.Total : ℚ)

/-- Modelled from the spec: `countErr[B] = sqrt(total_reads * p[B])`
(section 4.2). -/
noncomputable def spec_countErr (s : SampleIn) (b : Bin) : ℝ :=
  Real.sqrt ((s.Total : ℝ) * ((spec_p s b : ℚ) : ℝ))

/-- Modelled from the spec: `depthPerSite[B] = reads[B] / siteCount[B]`
(section 4.2). -/
def spec_depthPerSite (s : SampleIn) (b : Bin) : ℚ :=
  (s.Reads b : ℚ) / (s.SNPs b : ℚ)

/-- Modelled from the spec: `depthPerSiteErr[B] = countErr[B] / siteCount[B]`
(section 4.2). -/
noncomputable def spec_depthPerSiteErr (s : SampleIn) (b : Bin) : ℝ :=
  spec_countErr s b / (s.SNPs b : ℝ)

/-- Modelled from the spec: the propagated error
`rateErr[B] = sqrt((depthPerSiteErr[B]/depthPerSite[Aut])^2 +
(depthPerSiteErr[Aut]*depthPerSite[B]/depthPerSite[Aut]^2)^2)` (section 4.2). -/
noncomputable def spec_rateErr (s : SampleIn) (b : Bin) : ℝ :=
  Real.sqrt ((spec_depthPerSiteErr s b / ((spec_depthPerSite s Bin.Aut : ℚ) : ℝ)) ^ 2 +
    (spec_depthPerSiteErr s Bin.Aut * ((spec_depthPerSite s b : ℚ) : ℝ) /
      (((spec_depthPerSite s Bin.Aut : ℚ) : ℝ)) ^ 2) ^ 2)

/-- Embedding of the chromosome-field handling of the main loop (lines
88-91 of the source): `Chrom=fields[0][3:]` when `fields[0][0:3]=="chr"`,
else `Chrom=fields[0]`.  Python code-point slicing is modelled on the
string's character list. -/
def stripChr (s : String) : String :=
  if s.data.take 3 = ['c', 'h', 'r'] then String.mk (s.data.drop 3) else s

/-- The partition a stripped chromosome name falls into, as decided by the
three tests `Chrom != "Y" and Chrom != "X"`, `Chrom == "Y"`, `Chrom == "X"`
of the main loop (lines 104-116 of the source). -/
def partitionOf (chrom : String) : Bin :=
  if chrom = "X" then Bin.X else if chrom = "Y" then Bin.Y else Bin.Aut

/-- The partition of a raw first field: strip, then classify. -/
def linePartition (f0 : String) : Bin := partitionOf (stripChr f0)

/-- Modelled from the spec (section 4.1): the map applied to the remainder
after the optional strip — exact "X" to partition X, exact "Y" to partition
Y, everything else to Autosome. -/
def specRemainderMap (s : String) : Bin :=
  if s = "X" then Bin.X else if s = "Y" then Bin.Y else Bin.Aut

/-- The mutable state of the main script's aggregation loop: the
`OrderedDict` `Names` (as an association list in insertion order), the three
per-sample depth-sum arrays and the three global site counters. -/
structure AggState where
  Names : List (String × ℕ)
  NrAut : List ℤ
  NrX : List ℤ
  NrY : List ℤ
  AutSnps : ℕ
  XSnps : ℕ
  YSnps : ℕ
deriving DecidableEq, Repr

/-- One `Names.update({k: v})` on a Python `OrderedDict`: an existing key
keeps its position and gets the new value, a new key is appended. -/
def odUpdate (m : List (String × ℕ)) (k : String) (v : ℕ) : List (String × ℕ) :=
  if m.any fun kv => kv.1 = k then m.map fun kv => if kv.1 = k then (k, v) else kv
  else m ++ [(k, v)]

/-- The loop `for Sample,Index in zip(samples, range(len(samples))):
Names.update({Sample:Index})` run from an existing table. -/
def updateNames (m : List (String × ℕ)) (samples : List String) : List (String × ℕ) :=
  samples.enum.foldl (fun acc iv => odUpdate acc iv.2 iv.1) m

/-- Decimal digits to a number, `none` on a non-digit or an empty list. -/
def digitsToNat : List Char → Option ℕ
  | [] => none
  | l => l.foldl
      (fun acc c => acc.bind fun n =>
        if '0' ≤ c ∧ c ≤ '9' then some (10 * n + (c.toNat - '0'.toNat)) else none)
      (some 0)

/-- Python's `int(x)` on one whitespace-free token: an optional sign
followed by decimal digits; `none` models the `ValueError` anything else
raises. -/
def strToInt (s : String) : Option ℤ :=
  match s.data with
  | '-' :: rest => (digitsToNat rest).map fun n => -(n : ℤ)
  | '+' :: rest => (digitsToNat rest).map fun n => (n : ℤ)
  | l => (digitsToNat l).map fun n => (n : ℤ)

/-- The comprehension `depths=[int(x) for x in fields[2:]]`; `none` models
the `ValueError` a non-integer token raises. -/
def parseDepths (l : List String) : Option (List ℤ) :=
  l.mapM strToInt

/-- The loop `for x in Names: Nr..[Names[x]]+=depths[Names[x]]` on one of
the three arrays; `none` models the `IndexError` an out-of-range index
raises. -/
def bumpDepths (names : List (String × ℕ)) (depths : List ℤ) (nr : List ℤ) : Option (List ℤ) :=
  names.foldl
    (fun acc kv => acc.bind fun l =>
      if kv.2 < l.length ∧ kv.2 < depths.length
      then some (l.set kv.2 (l.getD kv.2 0 + depths.getD kv.2 0))
      else none)
    (some nr)

/-- Embedding of one iteration of the main loop (lines 86-116 of the
source) on the pre-split fields of a line.  `hasList` says whether an
explicit sample list was supplied; an `Except.error` models a raised
exception aborting the run. -/
def processLine (hasList : Bool) (st : AggState) : List String → Except String AggState
  | [] => Except.error "IndexError"
  | f0 :: rest =>
    let Chrom := stripChr f0
    if f0.data.take 1 = ['#'] then
      if hasList then Except.ok st
      else
        let ns := updateNames st.Names (rest.drop 1)
        Except.ok { st with Names := ns,
                            NrAut := List.replicate ns.length 0,
                            NrX := List.replicate ns.length 0,
                            NrY := List.replicate ns.length 0 }
    else
      match parseDepths (rest.drop 1) with
      | none => Except.error "ValueError"
      | some depths =>
        match partitionOf Chrom with
        | Bin.Aut =>
          match bumpDepths st.Names depths st.NrAut with
          | none => Except.error "IndexError"
          | some l => Except.ok { st with AutSnps := st.AutSnps + 1, NrAut := l }
        | Bin.X =>
          match bumpDepths st.Names depths st.NrX with
          | none => Except.error "IndexError"
          | some l => Except.ok { st with XSnps := st.XSnps + 1, NrX := l }
        | Bin.Y =>
          match bumpDepths st.Names depths st.NrY with
          | none => Except.error "IndexError"
          | some l => Except.ok { st with YSnps := st.YSnps + 1, NrY := l }

/-- The whole `for line in args.Input:` loop over the pre-split lines of
the stream. -/
def runAgg (hasList : Bool) : AggState → List (List String) → Except String AggState
  | st, [] => Except.ok st
  | st, l :: ls =>
    match processLine hasList st l with
    | Except.error e => Except.error e
    | Except.ok st1 => runAgg hasList st1 ls

/-- The state the loop starts from (lines 73-85 of the source): empty
table without a sample list; with one, the table built from the listed
names and zeroed arrays sized to the table. -/
def initState : Option (List String) → AggState
  | none => ⟨[], [], [], [], 0, 0, 0⟩
  | some samples =>
    let ns := updateNames [] samples
    ⟨ns, List.replicate ns.length 0, List.replicate ns.length 0,
      List.replicate ns.length 0, 0, 0, 0⟩

/-- The message of the `IOError` raised on empty input (lines 119-122 of
the source). -/
def emptyMsg : String :=
  "\nInput depth file is empty. Stopping execution.\n\nPlease ensure you are using a bed file compatible with your reference genome coordinates."

/-- The per-sample output of the main script (lines 127-144 of the
source): for each sample, in table order, its name, the `CalcErrors`
result and the classification. -/
noncomputable def outputRows (st : AggState) : List (String × Option RateRes × Option String) :=
  st.Names.map fun kv =>
    let res := CalcErrors ⟨st.AutSnps, st.XSnps, st.YSnps,
      st.NrAut.getD kv.2 0, st.NrX.getD kv.2 0, st.NrY.getD kv.2 0⟩
    (kv.1, res, sexOf res)

/-- The main script end to end: aggregate the stream, raise `IOError` if
all three global site counters are zero (lines 118-122 of the source),
otherwise emit one row per sample. -/
noncomputable def mainModel (sampleList : Option (List String)) (lines : List (List String)) :
    Except String (List (String × Option RateRes × Option String)) :=
  match runAgg sampleList.isSome (initState sampleList) lines with
  | Except.error e => Except.error e
  | Except.ok st =>
    if st.AutSnps + st.XSnps + st.YSnps = 0 then Except.error emptyMsg
    else Except.ok (outputRows st)

/-- A line that the loop treats as a plain data line with parseable
depths: nonempty fields, first character of the first field not the
comment marker, and every depth token an integer. -/
def plainDataLine (l : List String) : Prop :=
  l ≠ [] ∧ (l.headD "").data.take 1 ≠ ['#'] ∧ (parseDepths (l.drop 2)).isSome

instance (l : List String) : Decidable (plainDataLine l) := by
  unfold plainDataLine
  infer_instance

/-- Claim C1, counterexample: on global site counts Aut=100, X=50, Y=10 and
summed depths Aut=100, X=100, Y=0 the classification the program computes is
Female, not Undetermined as the claim states — rate_X = 2.0 satisfies
`rate_x >= 0.8` and rate_Y = 0.0 satisfies `rate_y < 0.05`, so the Female
branch fires (there is no upper bound on rate_X in that branch). -/
theorem C1_formula_chain_cex :
    sexOf (CalcErrors ⟨100, 50, 10, 100, 100, 0⟩) = some "Female" ∧
    some "Female" ≠ some "Undetermined" := by
  constructor
  · norm_num [CalcErrors, sexOf, SampleIn.Total, SampleIn.dp, SampleIn.Reads, SampleIn.SNPs,
      SampleIn.rate, determine_sex]
  · decide

/-- Claim C1, amended: for global site counts Aut=100, X=50, Y=10 and a
sample with summed depths Aut=100, X=100, Y=0 the estimator computes
total=200, p_Aut=0.5, p_X=0.5, depthPerSite_Aut=1.0, depthPerSite_X=2.0,
rate_X=2.0, and the resulting classification is Female. -/
theorem C1_formula_chain :
    SampleIn.Total ⟨100, 50, 10, 100, 100, 0⟩ = 200 ∧
    SampleIn.p ⟨100, 50, 10, 100, 100, 0⟩ Bin.Aut = 0.5 ∧
    SampleIn.p ⟨100, 50, 10, 100, 100, 0⟩ Bin.X = 0.5 ∧
    SampleIn.dp ⟨100, 50, 10, 100, 100, 0⟩ Bin.Aut = 1 ∧
    SampleIn.dp ⟨100, 50, 10, 100, 100, 0⟩ Bin.X = 2 ∧
    SampleIn.rate ⟨100, 50, 10, 100, 100, 0⟩ Bin.X = 2 ∧
    sexOf (CalcErrors ⟨100, 50, 10, 100, 100, 0⟩) = some "Female" := by
  norm_num [CalcErrors, sexOf, SampleIn.Total, SampleIn.dp, SampleIn.Reads, SampleIn.SNPs,
    SampleIn.rate, SampleIn.p, determine_sex]

/-- Claim C2, counterexample: the aggregator's empty-input check only
guarantees the SUM of the three global site counters is nonzero.  With
AutSnps=1, XSnps=0, YSnps=0 and sample depths (1, 0, 0) — a state the
aggregator reaches on the stream with header `# h p A` and the single data
line `1 1 1` — the sample total is nonzero and the sum of the site counters
is nonzero, yet `CalcErrors` divides by the zero `XSnps` (a
`ZeroDivisionError`, modelled as `none`).  A second division by zero, by
`dp["Aut"] = 0`, occurs for site counts (1,1,1) and depths (0, 5, 0) even
though all three site counters are nonzero. -/
theorem C2_no_division_by_zero_cex :
    ((1 : ℕ) + 0 + 0 ≠ 0) ∧
    SampleIn.Total ⟨1, 0, 0, 1, 0, 0⟩ ≠ 0 ∧
    CalcErrors ⟨1, 0, 0, 1, 0, 0⟩ = none ∧
    runAgg false (initState none) [["#h", "p", "A"], ["1", "1", "1"]] =
      Except.ok ⟨[("A", 0)], [1], [0], [0], 1, 0, 0⟩ ∧
    CalcErrors ⟨1, 1, 1, 0, 5, 0⟩ = none := by
  refine ⟨by decide, by decide, by rfl, by rfl, ?_⟩
  norm_num [CalcErrors, SampleIn.Total, SampleIn.dp, SampleIn.Reads, SampleIn.SNPs]

/-- Claim C2, amended: in the normal-case branch (sample total depth
nonzero), no division by zero occurs provided each of the three global site
counters is individually nonzero and the sample's summed autosomal depth is
nonzero. -/
theorem C2_no_division_by_zero (s : SampleIn) (hT : s.Total ≠ 0) (hA : s.AutSnps ≠ 0)
    (hX : s.XSnps ≠ 0) (hY : s.YSnps ≠ 0) (hNA : s.NrAut ≠ 0) :
    (CalcErrors s).isSome = true := by
  have hdp : s.dp Bin.Aut ≠ 0 :=
    div_ne_zero (Int.cast_ne_zero.mpr hNA) (Nat.cast_ne_zero.mpr hA)
  unfold CalcErrors
  rw [if_neg hT, if_neg (by push_neg; exact ⟨hA, hX, hY⟩), if_neg hdp]
  rfl

/-- Claim C2, witness at site counts (2,3,4) and depths (1,1,0). -/
theorem C2_no_division_by_zero_witness :
    (CalcErrors ⟨2, 3, 4, 1, 1, 0⟩).isSome = true :=
  C2_no_division_by_zero ⟨2, 3, 4, 1, 1, 0⟩ (by decide) (by decide) (by decide) (by decide)
    (by decide)

/-- Claim C3, counterexample: with no explicit sample list and a stream
consisting of the single data line `1 1 5` (no header line at all), the run
does NOT fail: aggregation silently proceeds over an empty sample table and
the program outputs an empty per-sample table. -/
theorem C3_missing_sample_identity_cex :
    mainModel none [["1", "1", "5"]] = Except.ok [] := by rfl

/-- Helper for claim C3: on a state with an empty sample table, a plain
data line is processed without error, keeps the table empty and increments
exactly one global site counter. -/
theorem processLine_no_names (st : AggState) (l : List String) (hn : st.Names = [])
    (hd : plainDataLine l) :
    ∃ st1, processLine false st l = Except.ok st1 ∧ st1.Names = [] ∧
      st1.AutSnps + st1.XSnps + st1.YSnps = st.AutSnps + st.XSnps + st.YSnps + 1 := by
  obtain ⟨hne, hhash, hparse⟩ := hd
  match l with
  | [] => exact absurd rfl hne
  | f0 :: rest =>
    obtain ⟨depths, hdep⟩ := Option.isSome_iff_exists.mp hparse
    have hbump : ∀ nr : List ℤ, bumpDepths st.Names depths nr = some nr := by
      intro nr
      rw [hn]
      rfl
    have hhash0 : ¬f0.data.take 1 = ['#'] := by simpa using hhash
    have hdep2 : parseDepths (rest.drop 1) = some depths := hdep
    simp only [processLine, hhash0, if_false, if_neg, hdep2]
    cases hpart : partitionOf (stripChr f0) <;>
      simp only [hbump] <;>
      exact ⟨_, rfl, hn, by dsimp only; omega⟩

/-- Helper for claim C3: a whole stream of plain data lines runs without
error over an empty sample table and increments the site counters once per
line. -/
theorem runAgg_no_names (lines : List (List String)) : ∀ st : AggState, st.Names = [] →
    (∀ l ∈ lines, plainDataLine l) →
    ∃ st1, runAgg false st lines = Except.ok st1 ∧ st1.Names = [] ∧
      st1.AutSnps + st1.XSnps + st1.YSnps =
        st.AutSnps + st.XSnps + st.YSnps + lines.length := by
  induction lines with
  | nil =>
    intro st hn _
    exact ⟨st, rfl, hn, by simp⟩
  | cons l ls ih =>
    intro st hn hall
    obtain ⟨st1, h1, hn1, hs1⟩ := processLine_no_names st l hn (hall l (by simp))
    obtain ⟨st2, h2, hn2, hs2⟩ := ih st1 hn1 (fun x hx => hall x (by simp [hx]))
    refine ⟨st2, ?_, hn2, ?_⟩
    · unfold runAgg
      rw [h1]
      exact h2
    · rw [hs2, hs1]
      simp
      omega

/-- Claim C3, amended: if no explicit sample list is supplied and the
stream contains only (well-formed) data lines and no header line, the run
does not fail — sample-to-column alignment is never established, the
per-sample loop bodies are vacuous, and the run completes normally with an
empty per-sample output table. -/
theorem C3_missing_sample_identity (lines : List (List String)) (hne : lines ≠ [])
    (hall : ∀ l ∈ lines, plainDataLine l) :
    mainModel none lines = Except.ok [] := by
  obtain ⟨st1, h1, hn1, hs1⟩ := runAgg_no_names lines (initState none) rfl hall
  have hlen : st1.AutSnps + st1.XSnps + st1.YSnps = lines.length := by
    simpa [initState] using hs1
  have hnz : ¬st1.AutSnps + st1.XSnps + st1.YSnps = 0 := by
    rw [hlen]
    simpa using hne
  simp [mainModel, h1, hnz, outputRows, hn1]

/-- Claim C3, witness on a two-line headerless stream. -/
theorem C3_missing_sample_identity_witness :
    mainModel none [["2", "9", "3"], ["chrX", "4", "1"]] = Except.ok [] :=
  C3_missing_sample_identity [["2", "9", "3"], ["chrX", "4", "1"]] (by decide) (by decide)

/-- Claim C4, counterexample: a second header line DOES change the
accumulated per-sample depth sums.  After header, data line `1 1 5`, the
sample's autosomal sum is 5; processing the same header again resets it
to 0. -/
theorem C4_header_reinit_cex :
    (runAgg false (initState none) [["#chr", "pos", "A"], ["1", "1", "5"]]).map AggState.NrAut =
      Except.ok [5] ∧
    (runAgg false (initState none)
        [["#chr", "pos", "A"], ["1", "1", "5"], ["#chr", "pos", "A"]]).map AggState.NrAut =
      Except.ok [0] ∧
    (Except.ok [(5 : ℤ)] : Except String (List ℤ)) ≠ Except.ok [(0 : ℤ)] := by
  refine ⟨by rfl, by rfl, by simp⟩

/-- Claim C4, amended: when no explicit sample list is supplied, EVERY
header line encountered (not only the first) re-applies the sample-name
updates to the table and resets all three accumulated per-sample depth-sum
arrays to zeros sized to the updated table; the global site counters are
left unchanged. -/
theorem C4_header_reinit (st : AggState) (f0 : String) (rest : List String)
    (h : f0.data.take 1 = ['#']) :
    processLine false st (f0 :: rest) =
      Except.ok ⟨updateNames st.Names (rest.drop 1),
        List.replicate (updateNames st.Names (rest.drop 1)).length 0,
        List.replicate (updateNames st.Names (rest.drop 1)).length 0,
        List.replicate (updateNames st.Names (rest.drop 1)).length 0,
        st.AutSnps, st.XSnps, st.YSnps⟩ := by
  simp [processLine, h]

/-- Claim C4, witness: a repeated header on a mid-run state resets the
accumulated sum 5 to 0. -/
theorem C4_header_reinit_witness :
    processLine false ⟨[("A", 0)], [5], [0], [0], 1, 0, 0⟩ ["#chr", "pos", "A"] =
      Except.ok ⟨[("A", 0)], [0], [0], [0], 1, 0, 0⟩ :=
  C4_header_reinit ⟨[("A", 0)], [5], [0], [0], 1, 0, 0⟩ "#chr" ["pos", "A"] (by decide)

/-- Claim C5: for every sample whose total summed depth across the three
partitions is zero, the estimator returns all rates and all errors 0.0 and
the classification is Undetermined. -/
theorem C5_degenerate_zero (s : SampleIn) (h : s.Total = 0) :
    CalcErrors s = some ⟨0, 0, 0, 0⟩ ∧ sexOf (CalcErrors s) = some "Undetermined" := by
  have hc : CalcErrors s = some ⟨0, 0, 0, 0⟩ := by simp [CalcErrors, h]
  refine ⟨hc, ?_⟩
  rw [hc]
  norm_num [sexOf, determine_sex]

/-- Claim C5, witness at site counts (5,5,5) and an all-zero sample. -/
theorem C5_degenerate_zero_witness :
    CalcErrors ⟨5, 5, 5, 0, 0, 0⟩ = some ⟨0, 0, 0, 0⟩ ∧
    sexOf (CalcErrors ⟨5, 5, 5, 0, 0, 0⟩) = some "Undetermined" :=
  C5_degenerate_zero ⟨5, 5, 5, 0, 0, 0⟩ (by decide)

/-- Claim C6: the classifier returns Female iff `rate_x >= 0.8` and
`rate_y < 0.05`; otherwise Male iff `0.35 <= rate_x <= 0.65` and
`rate_y >= 0.1`; otherwise Undetermined.  In particular (0.8, 0.05) yields
Undetermined (strict less-than on the Female Y-threshold) and (0.35, 0.1)
yields Male (inclusive bounds). -/
theorem C6_classification_rule :
    ∀ rate_x rate_y : ℚ,
      (determine_sex rate_x rate_y = "Female" ↔ rate_x ≥ 0.8 ∧ rate_y < 0.05) ∧
      (determine_sex rate_x rate_y = "Male" ↔
        ¬(rate_x ≥ 0.8 ∧ rate_y < 0.05) ∧ (0.35 ≤ rate_x ∧ rate_x ≤ 0.65 ∧ rate_y ≥ 0.1)) ∧
      (determine_sex rate_x rate_y = "Undetermined" ↔
        ¬(rate_x ≥ 0.8 ∧ rate_y < 0.05) ∧ ¬(0.35 ≤ rate_x ∧ rate_x ≤ 0.65 ∧ rate_y ≥ 0.1)) ∧
      determine_sex 0.8 0.05 = "Undetermined" ∧
      determine_sex 0.35 0.1 = "Male" := by
  intro x y
  refine ⟨?_, ?_, ?_, by norm_num [determine_sex], by norm_num [determine_sex]⟩ <;>
  · unfold determine_sex
    split_ifs with h1 h2 <;> simp_all

/-- Claim C7: partition assignment strips one leading case-sensitive "chr"
and maps the exact remainder "X" to X, "Y" to Y, anything else to Autosome
— the same pure function on every record; in particular "chrX" and "X" map
to X, "chrY" to Y, "chr7" and "7" to Autosome. -/
theorem C7_partition_assignment :
    ∀ s : String,
      linePartition (String.mk ('c' :: 'h' :: 'r' :: s.data)) = specRemainderMap s ∧
      (s.data.take 3 ≠ ['c', 'h', 'r'] → linePartition s = specRemainderMap s) ∧
      linePartition "chrX" = Bin.X ∧ linePartition "X" = Bin.X ∧
      linePartition "chrY" = Bin.Y ∧ linePartition "chr7" = Bin.Aut ∧
      linePartition "7" = Bin.Aut := by
  intro s
  refine ⟨rfl, ?_, by decide, by decide, by decide, by decide, by decide⟩
  intro h
  show partitionOf (stripChr s) = specRemainderMap s
  unfold stripChr
  rw [if_neg h]
  rfl

/-- Claim C8: if after the whole stream is consumed all three global site
counters are zero, the run fails with the fatal empty-input `IOError`,
whose message directs the user toward reference-genome-coordinate
compatibility, and no per-sample output is produced (the result is the
error, not a row list). -/
theorem C8_empty_input (sampleList : Option (List String)) (lines : List (List String))
    (st : AggState) (hrun : runAgg sampleList.isSome (initState sampleList) lines = Except.ok st)
    (h0 : st.AutSnps + st.XSnps + st.YSnps = 0) :
    mainModel sampleList lines = Except.error emptyMsg ∧
    ∃ a b : String, emptyMsg = a ++ "reference genome coordinates" ++ b := by
  constructor
  · simp [mainModel, hrun, h0]
  · exact ⟨"\nInput depth file is empty. Stopping execution.\n\nPlease ensure you are using a bed file compatible with your ", ".", by decide⟩

/-- Claim C8, witness on a stream holding only a header line. -/
theorem C8_empty_input_witness :
    mainModel none [["#chr", "pos", "A"]] = Except.error emptyMsg ∧
    ∃ a b : String, emptyMsg = a ++ "reference genome coordinates" ++ b :=
  C8_empty_input none [["#chr", "pos", "A"]] ⟨[("A", 0)], [0], [0], [0], 0, 0, 0⟩ (by rfl) (by rfl)

/-- Claim C9: in the normal case (sample total depth nonzero), the
propagated errors the estimator returns equal the spec's composed formula
`rateErr[B] = sqrt((depthPerSiteErr[B]/depthPerSite[Aut])^2 +
(depthPerSiteErr[Aut]*depthPerSite[B]/depthPerSite[Aut]^2)^2)` with
`depthPerSite[B] = reads[B]/siteCount[B]`,
`depthPerSiteErr[B] = sqrt(total_reads*p[B])/siteCount[B]` and
`p[B] = reads[B]/total_reads`, for B in X and Y. -/
theorem C9_error_propagation (s : SampleIn) (r : RateRes) (hT : s.Total ≠ 0)
    (h : CalcErrors s = some r) :
    r.rateErrX = spec_rateErr s Bin.X ∧ r.rateErrY = spec_rateErr s Bin.Y := by
  unfold CalcErrors at h
  rw [if_neg hT] at h
  by_cases h0 : s.AutSnps = 0 ∨ s.XSnps = 0 ∨ s.YSnps = 0
  · rw [if_pos h0] at h
    exact absurd h (by simp)
  · rw [if_neg h0] at h
    by_cases hdp : s.dp Bin.Aut = 0
    · rw [if_pos hdp] at h
      exact absurd h (by simp)
    · rw [if_neg hdp] at h
      obtain rfl := (Option.some.injEq _ _).mp h
      exact ⟨rfl, rfl⟩

/-- Claim C9, witness at site counts (100,50,10) and depths (100,100,0). -/
theorem C9_error_propagation_witness :
    SampleIn.rateErr ⟨100, 50, 10, 100, 100, 0⟩ Bin.X =
      spec_rateErr ⟨100, 50, 10, 100, 100, 0⟩ Bin.X ∧
    SampleIn.rateErr ⟨100, 50, 10, 100, 100, 0⟩ Bin.Y =
      spec_rateErr ⟨100, 50, 10, 100, 100, 0⟩ Bin.Y :=
  C9_error_propagation ⟨100, 50, 10, 100, 100, 0⟩
    ⟨SampleIn.rate ⟨100, 50, 10, 100, 100, 0⟩ Bin.X, SampleIn.rate ⟨100, 50, 10, 100, 100, 0⟩ Bin.Y,
      SampleIn.rateErr ⟨100, 50, 10, 100, 100, 0⟩ Bin.X,
      SampleIn.rateErr ⟨100, 50, 10, 100, 100, 0⟩ Bin.Y⟩
    (by decide)
    (by norm_num [CalcErrors, SampleIn.Total, SampleIn.dp, SampleIn.Reads, SampleIn.SNPs])

/-- Claim C10: the Female condition and the Male condition are mutually
exclusive for every rate pair, so the classifier's result does not depend
on the order in which the two branches are evaluated. -/
theorem C10_bands_exclusive :
    ∀ rate_x rate_y : ℚ,
      ¬((rate_x ≥ 0.8 ∧ rate_y < 0.05) ∧ (0.35 ≤ rate_x ∧ rate_x ≤ 0.65 ∧ rate_y ≥ 0.1)) ∧
      determine_sex rate_x rate_y = determine_sex_male_first rate_x rate_y := by
  intro x y
  have hex : ¬((x ≥ 0.8 ∧ y < 0.05) ∧ (0.35 ≤ x ∧ x ≤ 0.65 ∧ y ≥ 0.1)) := by
    rintro ⟨⟨h8, -⟩, -, h65, -⟩
    linarith
  refine ⟨hex, ?_⟩
  unfold determine_sex determine_sex_male_first
  split_ifs with h1 h2 h3 <;> first
    | rfl
    | exact absurd ⟨h1, h2⟩ hex

end SexDet
